import Mathlib

/-!
Verification of the RSA placement-analysis engine (`src/analyze_rsa.py`).

The embedding below translates the four core components of the script:

* `identify_platform_type`  (PlatformTypeClassifier, lines 118-146)
* `calculate_averages`      (AggregateStatisticsCalculator, lines 75-115)
* `apply_blocking_criteria` (BlockingRuleEngine, lines 149-326, per-record body)
* `segmentTag`              (SegmentationEngine, lines 341-360, per-record body)

Numeric fields are embedded as exact rationals (`ℚ`); the pandas mean of an
empty series, which is the floating-point NaN, is embedded as `none` in
`Option ℚ`.  The free-text deviation / justification strings built by the
engine are numeric formatting only and are not modelled; a verdict keeps the
four plain string fields the source assigns in every branch.
-/

set_option maxHeartbeats 1000000

/-- One row of the cleaned dataframe (§3 PlacementRecord).  Field order and
names follow the renamed columns of `load_and_preprocess_data`:
Площадка, Показов, Кликов, CTR_%, Расход_руб, Ср_цена_клика_руб, Отказы_%,
Глубина_стр, Цена_цели_руб, Конверсии. -/
structure PlacementRecord where
  platform : String
  impressions : ℚ
  clicks : ℚ
  ctr : ℚ
  spend : ℚ
  cpc : ℚ
  bounce : ℚ
  depth : ℚ
  cpa : ℚ
  conversions : ℚ
deriving DecidableEq

/-- The baselines dictionary consumed by the two engines (the `averages`
argument of `apply_blocking_criteria` and `segment_platforms`). -/
structure Averages where
  avg_ctr : ℚ
  avg_cpc : ℚ
  avg_bounce : ℚ
  avg_depth : ℚ
  avg_conversions : ℚ
  avg_spend : ℚ
  avg_cpa : ℚ
deriving DecidableEq

/-- The four plain string fields set in every branch of
`apply_blocking_criteria` (blocking_reason, priority, recommendation,
criteria_number). -/
structure Verdict where
  blocking_reason : String
  priority : String
  recommendation : String
  criteria_number : String
deriving DecidableEq

/-- The effectiveness tier assigned by `segment_platforms` (§4.4). -/
inductive SegmentTag where
  | effective
  | medium
  | ineffective
deriving DecidableEq

/-- Python's lowercase conversion `str.lower`, on the character data. -/
def lowerStr (s : String) : String := ⟨s.data.map Char.toLower⟩

/-- Contiguous-subsequence (substring) search on character lists. -/
def containsSeq (pat : List Char) : List Char → Bool
  | [] => pat.isEmpty
  | c :: cs => pat.isPrefixOf (c :: cs) || containsSeq pat cs

/-- Python's substring test `pat in s`. -/
def strContains (s pat : String) : Bool := containsSeq pat.data s.data

/-- Python's `s.startswith(pre)`. -/
def strStarts (s pre : String) : Bool := pre.data.isPrefixOf s.data

/-- Python's `s.endswith(suf)`. -/
def strEnds (s suf : String) : Bool := suf.data.isSuffixOf s.data

/-- Python's `s.count('.')`. -/
def dotCount (s : String) : Nat := s.data.count '.'

/-- The fixed list `mobile_prefixes` of `identify_platform_type`. -/
def mobile_prefixes : List String :=
  ["com.", "ru.", "by.", "fm.", "org.", "cz.",
   "net.", "biz.", "game.", "afisha.", "asian.",
   "air.", "and.", "io.", "con.", "tap."]

/-- The `for prefix in mobile_prefixes` loop of `identify_platform_type`:
on a prefix match the compound dot-count / yandex-dzen guard decides whether
to return the mobile-app category, otherwise the loop goes on. -/
def mobileCheck (n : String) : List String → Bool
  | [] => false
  | p :: ps =>
    if strStarts n p then
      if 2 ≤ dotCount n ∨ ¬(strContains n "yandex" ∨ strContains n "dzen") then
        true
      else
        mobileCheck n ps
    else
      mobileCheck n ps

/-- PlatformTypeClassifier (`identify_platform_type`, lines 118-146):
lower-cases the identifier, then tests yandex/dzen, the dsp- prefix, the
mobile-prefix loop, and the .com suffix, in that order. -/
def identify_platform_type (platform_name : String) : String :=
  let n := lowerStr platform_name
  if strContains n "yandex" ∨ n = "dzen.ru" then "Яндекс-площадка"
  else if strStarts n "dsp-" then "DSP-площадка"
  else if mobileCheck n mobile_prefixes then "Мобильное приложение"
  else if strEnds n ".com" then "Сайт (.com)"
  else "Сайт"

/-- A pandas `Series.mean()`: NaN on an empty series, embedded as `none`. -/
def seriesMean (xs : List ℚ) : Option ℚ :=
  if xs = [] then none else some (xs.sum / xs.length)

/-- The value returned by `calculate_averages`: the six whole-batch means
(NaN, hence `none`, when the batch is empty) and the guarded `avg_cpa`. -/
structure AveragesResult where
  avg_ctr : Option ℚ
  avg_cpc : Option ℚ
  avg_bounce : Option ℚ
  avg_depth : Option ℚ
  avg_conversions : Option ℚ
  avg_spend : Option ℚ
  avg_cpa : ℚ
deriving DecidableEq

/-- AggregateStatisticsCalculator (`calculate_averages`, lines 75-115):
unweighted means over the whole batch, and a mean cost-per-action restricted
to the rows with `Конверсии > 0`, defaulting to 0 when there is no such row. -/
def calculate_averages (df : List PlacementRecord) : AveragesResult :=
  let df_with_conversions := df.filter fun r => decide (r.conversions > 0)
  { avg_ctr := seriesMean (df.map fun r => r.ctr)
    avg_cpc := seriesMean (df.map fun r => r.cpc)
    avg_bounce := seriesMean (df.map fun r => r.bounce)
    avg_depth := seriesMean (df.map fun r => r.depth)
    avg_conversions := seriesMean (df.map fun r => r.conversions)
    avg_spend := seriesMean (df.map fun r => r.spend)
    avg_cpa :=
      if df_with_conversions.length > 0 then
        (df_with_conversions.map fun r => r.cpa).sum / df_with_conversions.length
      else 0 }

/-- The leniency coefficient of the rule engine (lines 164-167): `1.5` for a
Yandex placement, `1.0` otherwise. -/
def yandexCoefOf (platform_type : String) : ℚ :=
  if platform_type = "Яндекс-площадка" then 1.5 else 1.0

def V22a : Verdict :=
  ⟨"Экстремально высокий CTR (мошеннический трафик)", "КРИТИЧНЫЙ",
    "БЛОКИРОВАТЬ НЕМЕДЛЕННО", "2.2а"⟩

def V22b : Verdict :=
  ⟨"Подозрительно высокий CTR без конверсий", "ВЫСОКИЙ", "БЛОКИРОВАТЬ", "2.2б"⟩

def V22b21 : Verdict :=
  ⟨"Высокий CTR + дорогие конверсии", "ВЫСОКИЙ", "БЛОКИРОВАТЬ", "2.2б + 2.1"⟩

def V21A : Verdict :=
  ⟨"Высокая стоимость конверсии", "КРИТИЧНЫЙ", "БЛОКИРОВАТЬ", "2.1A"⟩

def V21B : Verdict :=
  ⟨"Нулевые конверсии при значительном расходе", "КРИТИЧНЫЙ", "БЛОКИРОВАТЬ", "2.1Б"⟩

def V23 : Verdict :=
  ⟨"Критически низкий CTR", "ВЫСОКИЙ", "БЛОКИРОВАТЬ", "2.3"⟩

def V28 : Verdict :=
  ⟨"Подозрительно низкая цена клика + высокий CTR", "ВЫСОКИЙ", "БЛОКИРОВАТЬ", "2.8"⟩

def V24 : Verdict :=
  ⟨"Низкая вовлеченность пользователей", "СРЕДНИЙ", "БЛОКИРОВАТЬ", "2.4"⟩

def V25 : Verdict :=
  ⟨"Мобильное приложение: подозрительные показатели", "ДОПОЛНИТЕЛЬНЫЙ",
    "БЛОКИРОВАТЬ", "2.5"⟩

def V25B : Verdict :=
  ⟨"DSP-площадка: подозрительные показатели", "ДОПОЛНИТЕЛЬНЫЙ",
    "БЛОКИРОВАТЬ", "2.5Б"⟩

def V26 : Verdict :=
  ⟨"Домен .com без конверсий при расходе", "ДОПОЛНИТЕЛЬНЫЙ", "БЛОКИРОВАТЬ", "2.6"⟩

/-- BlockingRuleEngine, per-record body of `apply_blocking_criteria`
(lines 159-286).  The Python code keeps a `blocking_reason` that starts as
`None`; the 2.2а/2.2б block is an if/elif with two inner sub-branches, and
every later criterion is guarded by `blocking_reason is None` (2.5, 2.5Б and
2.6 additionally by the platform type).  Each assignment of the verdict
fields is one `Verdict` constant above. -/
def apply_blocking_criteria (a : Averages) (r : PlacementRecord) : Option Verdict :=
  let platform_type := identify_platform_type r.platform
  let yandex_coef := yandexCoefOf platform_type
  let v : Option Verdict :=
    if r.ctr ≥ 50 ∧ r.impressions ≥ 10 then some V22a
    else if r.ctr ≥ 10 * yandex_coef ∧ r.ctr < 50 ∧ r.impressions ≥ 10 then
      if r.conversions = 0 then some V22b
      else if r.conversions > 0 ∧ r.cpa > a.avg_cpa * 2.5 * yandex_coef then some V22b21
      else none
    else none
  let v :=
    if v = none ∧ r.conversions > 0 ∧
        (r.cpa > a.avg_cpa * 2.5 * yandex_coef ∧ a.avg_cpa > 0) then some V21A
    else v
  let v :=
    if v = none ∧ r.conversions = 0 ∧
        (r.spend ≥ 50 * yandex_coef ∧ r.clicks ≥ 10) then some V21B
    else v
  let v :=
    if v = none ∧ (r.ctr < 0.20 / yandex_coef ∧ r.impressions ≥ 1000) then some V23
    else v
  let v :=
    if v = none ∧ (r.cpc < a.avg_cpc * 0.3 ∧ r.ctr > 15) then some V28
    else v
  let v :=
    if v = none ∧ ((r.bounce > a.avg_bounce * 1.2 * yandex_coef ∨ r.depth ≤ 1.0) ∧
        r.conversions = 0 ∧ r.clicks ≥ 20) then some V24
    else v
  let v :=
    if platform_type = "Мобильное приложение" ∧ v = none ∧
        ((r.ctr > 15 ∧ r.conversions = 0) ∨ (r.cpc < 0.5 ∧ r.ctr > 20) ∨
          (r.spend > 30 ∧ r.conversions = 0)) then some V25
    else v
  let v :=
    if platform_type = "DSP-площадка" ∧ v = none ∧
        ((r.ctr > 15 ∧ r.conversions = 0) ∨ (r.cpc < 0.5 ∧ r.ctr > 20) ∨
          (r.spend > 30 ∧ r.conversions = 0)) then some V25B
    else v
  let v :=
    if platform_type = "Сайт (.com)" ∧ v = none ∧
        (r.conversions = 0 ∧ r.spend > 30) then some V26
    else v
  v

/-- SegmentationEngine, per-record body of `segment_platforms`
(lines 341-360): the effective test, then the ineffective test, else medium. -/
def segmentTag (a : Averages) (r : PlacementRecord) : SegmentTag :=
  if r.conversions > 0 ∧ r.cpa ≤ a.avg_cpa ∧
      (0.5 ≤ r.ctr ∧ r.ctr ≤ 2) ∧ r.bounce ≤ a.avg_bounce then
    SegmentTag.effective
  else if r.ctr ≥ 50 ∨ (r.ctr ≥ 10 ∧ r.conversions = 0) ∨
      (r.conversions > 0 ∧ r.cpa > a.avg_cpa * 2.5) ∨
      (r.conversions = 0 ∧ r.spend ≥ 50 ∧ r.clicks ≥ 10) ∨
      (r.ctr < 0.20 ∧ r.impressions ≥ 1000) then
    SegmentTag.ineffective
  else
    SegmentTag.medium

/-- `segment_platforms` as a whole: the three identifier lists, in batch
order, built from the per-record tag. -/
def segment_platforms (a : Averages) (df : List PlacementRecord) :
    List String × List String × List String :=
  ((df.filter fun r => decide (segmentTag a r = SegmentTag.effective)).map
      fun r => r.platform,
   (df.filter fun r => decide (segmentTag a r = SegmentTag.medium)).map
      fun r => r.platform,
   (df.filter fun r => decide (segmentTag a r = SegmentTag.ineffective)).map
      fun r => r.platform)

/-! ## Spec-side definitions (§4.1, §4.3 of the specification)

The definitions below restate the spec's precedence tables in the spec's own
terms, to be compared with the literal translations above.  Each `cond...`
is one row condition of the §4.3 table (with `coef` the leniency
coefficient and `a` the baselines). -/

/-- Rule 2.2a: CTR ≥ 50 and impressions ≥ 10. -/
abbrev cond22a (r : PlacementRecord) : Prop :=
  r.ctr ≥ 50 ∧ r.impressions ≥ 10

/-- The 10·coef ≤ CTR < 50 band shared by both 2.2b sub-branches. -/
abbrev ctrBand (coef : ℚ) (r : PlacementRecord) : Prop :=
  r.ctr ≥ 10 * coef ∧ r.ctr < 50 ∧ r.impressions ≥ 10

/-- Rule 2.2b, zero-conversion sub-branch. -/
abbrev cond22bZero (coef : ℚ) (r : PlacementRecord) : Prop :=
  ctrBand coef r ∧ r.conversions = 0

/-- Rule 2.2b+2.1, expensive-conversion sub-branch. -/
abbrev cond22bExp (a : Averages) (coef : ℚ) (r : PlacementRecord) : Prop :=
  ctrBand coef r ∧ (r.conversions > 0 ∧ r.cpa > a.avg_cpa * 2.5 * coef)

/-- Rule 2.1A: conversions present, cost-per-action above the scaled
baseline, with the avg_cpa > 0 guard. -/
abbrev cond21A (a : Averages) (coef : ℚ) (r : PlacementRecord) : Prop :=
  r.conversions > 0 ∧ (r.cpa > a.avg_cpa * 2.5 * coef ∧ a.avg_cpa > 0)

/-- Rule 2.1B: zero conversions despite meaningful spend. -/
abbrev cond21B (coef : ℚ) (r : PlacementRecord) : Prop :=
  r.conversions = 0 ∧ (r.spend ≥ 50 * coef ∧ r.clicks ≥ 10)

/-- Rule 2.3: critically low CTR at scale. -/
abbrev cond23 (coef : ℚ) (r : PlacementRecord) : Prop :=
  r.ctr < 0.20 / coef ∧ r.impressions ≥ 1000

/-- Rule 2.8: suspiciously cheap clicks with high CTR. -/
abbrev cond28 (a : Averages) (r : PlacementRecord) : Prop :=
  r.cpc < a.avg_cpc * 0.3 ∧ r.ctr > 15

/-- Rule 2.4: low engagement. -/
abbrev cond24 (a : Averages) (coef : ℚ) (r : PlacementRecord) : Prop :=
  (r.bounce > a.avg_bounce * 1.2 * coef ∨ r.depth ≤ 1.0) ∧
    r.conversions = 0 ∧ r.clicks ≥ 20

/-- The compound suspicious-signals condition shared by rules 2.5 and 2.5B. -/
abbrev condSusp (r : PlacementRecord) : Prop :=
  (r.ctr > 15 ∧ r.conversions = 0) ∨ (r.cpc < 0.5 ∧ r.ctr > 20) ∨
    (r.spend > 30 ∧ r.conversions = 0)

/-- Rule 2.6: unconverted .com spend. -/
abbrev cond26 (r : PlacementRecord) : Prop :=
  r.conversions = 0 ∧ r.spend > 30

/-- Modelled from the spec, §4.3: the precedence table evaluated in the
exact order 2.2a, 2.2b, 2.2b+2.1, 2.1A, 2.1B, 2.3, 2.8, 2.4, 2.5, 2.5B,
2.6, stopping at the first row whose condition holds; `none` when no row
matches. -/
def specVerdict (a : Averages) (r : PlacementRecord) : Option Verdict :=
  let pt := identify_platform_type r.platform
  let coef := yandexCoefOf pt
  if r.ctr ≥ 50 ∧ r.impressions ≥ 10 then some V22a
  else if (r.ctr ≥ 10 * coef ∧ r.ctr < 50 ∧ r.impressions ≥ 10) ∧
      r.conversions = 0 then some V22b
  else if (r.ctr ≥ 10 * coef ∧ r.ctr < 50 ∧ r.impressions ≥ 10) ∧
      (r.conversions > 0 ∧ r.cpa > a.avg_cpa * 2.5 * coef) then some V22b21
  else if r.conversions > 0 ∧ (r.cpa > a.avg_cpa * 2.5 * coef ∧ a.avg_cpa > 0) then
    some V21A
  else if r.conversions = 0 ∧ (r.spend ≥ 50 * coef ∧ r.clicks ≥ 10) then some V21B
  else if r.ctr < 0.20 / coef ∧ r.impressions ≥ 1000 then some V23
  else if r.cpc < a.avg_cpc * 0.3 ∧ r.ctr > 15 then some V28
  else if (r.bounce > a.avg_bounce * 1.2 * coef ∨ r.depth ≤ 1.0) ∧
      r.conversions = 0 ∧ r.clicks ≥ 20 then some V24
  else if pt = "Мобильное приложение" ∧
      ((r.ctr > 15 ∧ r.conversions = 0) ∨ (r.cpc < 0.5 ∧ r.ctr > 20) ∨
        (r.spend > 30 ∧ r.conversions = 0)) then some V25
  else if pt = "DSP-площадка" ∧
      ((r.ctr > 15 ∧ r.conversions = 0) ∨ (r.cpc < 0.5 ∧ r.ctr > 20) ∨
        (r.spend > 30 ∧ r.conversions = 0)) then some V25B
  else if pt = "Сайт (.com)" ∧ (r.conversions = 0 ∧ r.spend > 30) then some V26
  else none

/-- Modelled from the spec, §4.1: the classifier's precedence list, with the
mobile-prefix step stated as an existential (`List.any`) over the prefix
table together with the compound dot-count / yandex-dzen guard. -/
def specClassify (s : String) : String :=
  let n := lowerStr s
  if strContains n "yandex" ∨ n = "dzen.ru" then "Яндекс-площадка"
  else if strStarts n "dsp-" then "DSP-площадка"
  else if (mobile_prefixes.any fun p => strStarts n p) ∧
      (2 ≤ dotCount n ∨ ¬(strContains n "yandex" ∨ strContains n "dzen")) then
    "Мобильное приложение"
  else if strEnds n ".com" then "Сайт (.com)"
  else "Сайт"

/-- Modelled from the spec, §4.2: the unweighted arithmetic mean. -/
def arithMean (xs : List ℚ) : ℚ := xs.sum / xs.length

lemma orElse_step (o : Option Verdict) (c : Prop) [Decidable c] (x : Verdict) :
    (if o = none ∧ c then some x else o) =
      o.orElse (fun _ => if c then some x else none) := by
  cases o <;> simp [Option.orElse]

lemma orElse_step_guard (p : Prop) [Decidable p] (o : Option Verdict) (c : Prop)
    [Decidable c] (x : Verdict) :
    (if p ∧ o = none ∧ c then some x else o) =
      o.orElse (fun _ => if p ∧ c then some x else none) := by
  cases o <;> simp [Option.orElse]

theorem apply_eq_spec (a : Averages) (r : PlacementRecord) :
    apply_blocking_criteria a r = specVerdict a r := by
  unfold apply_blocking_criteria specVerdict
  simp only [orElse_step, orElse_step_guard]
  set pt := identify_platform_type r.platform with hpt
  set coef := yandexCoefOf pt with hcoef
  by_cases h1 : 50 ≤ r.ctr ∧ 10 ≤ r.impressions
  · simp [h1]
  by_cases hB : 10 * coef ≤ r.ctr ∧ r.ctr < 50 ∧ 10 ≤ r.impressions
  · have h50 : ¬(50 ≤ r.ctr) := not_le.mpr hB.2.1
    by_cases hc0 : r.conversions = 0
    · simp [h1, hB, hc0, h50]
    by_cases hexp : 0 < r.conversions ∧ a.avg_cpa * 2.5 * coef < r.cpa
    · simp [h1, hB, hc0, hexp, h50]
    by_cases hAV : 0 < a.avg_cpa
    all_goals
      by_cases h23 : r.ctr < 0.20 / coef ∧ 1000 ≤ r.impressions
      · simp [h1, hB, hc0, hexp, hAV, h23, h50]
      by_cases h28 : r.cpc < a.avg_cpc * 0.3 ∧ 15 < r.ctr
      · simp [h1, hB, hc0, hexp, hAV, h23, h28, h50]
      by_cases hs2 : r.cpc < 0.5 ∧ 20 < r.ctr
      · by_cases hM : pt = "Мобильное приложение"
        · simp [h1, hB, hc0, hexp, hAV, h23, h28, hs2, hM, h50]
        by_cases hD : pt = "DSP-площадка"
        · simp [h1, hB, hc0, hexp, hAV, h23, h28, hs2, hM, hD, h50]
        · simp [h1, hB, hc0, hexp, hAV, h23, h28, hs2, hM, hD, h50]
      · simp [h1, hB, hc0, hexp, hAV, h23, h28, hs2, h50]
  · by_cases h21A : 0 < r.conversions ∧ (a.avg_cpa * 2.5 * coef < r.cpa ∧ 0 < a.avg_cpa)
    · simp [h1, hB, h21A]
    by_cases h21B : r.conversions = 0 ∧ (50 * coef ≤ r.spend ∧ 10 ≤ r.clicks)
    · simp [h1, hB, h21A, h21B]
    by_cases h23 : r.ctr < 0.20 / coef ∧ 1000 ≤ r.impressions
    · simp [h1, hB, h21A, h21B, h23]
    by_cases h28 : r.cpc < a.avg_cpc * 0.3 ∧ 15 < r.ctr
    · simp [h1, hB, h21A, h21B, h23, h28]
    by_cases h24 : (a.avg_bounce * 1.2 * coef < r.bounce ∨ r.depth ≤ 1.0) ∧
        r.conversions = 0 ∧ 20 ≤ r.clicks
    · have hX : ¬(50 * coef ≤ r.spend ∧ 10 ≤ r.clicks) := fun hx => h21B ⟨h24.2.1, hx⟩
      simp [h1, hB, h21A, hX, h23, h28, h24.1, h24.2.1, h24.2.2]
    by_cases hsusp : (15 < r.ctr ∧ r.conversions = 0) ∨ (r.cpc < 0.5 ∧ 20 < r.ctr) ∨
        (30 < r.spend ∧ r.conversions = 0)
    · by_cases hM : pt = "Мобильное приложение"
      · simp [h1, hB, h21A, h21B, h23, h28, h24, hsusp, hM]
      by_cases hD : pt = "DSP-площадка"
      · simp [h1, hB, h21A, h21B, h23, h28, h24, hsusp, hM, hD]
      by_cases hCM : pt = "Сайт (.com)"
      · by_cases h26 : r.conversions = 0 ∧ 30 < r.spend
        · have hX : ¬(50 * coef ≤ r.spend ∧ 10 ≤ r.clicks) := fun hx => h21B ⟨h26.1, hx⟩
          have hY : ¬((a.avg_bounce * 1.2 * coef < r.bounce ∨ r.depth ≤ 1.0) ∧ 20 ≤ r.clicks) :=
            fun hy => h24 ⟨hy.1, h26.1, hy.2⟩
          simp [h1, hB, h21A, hX, hY, h23, h28, hsusp, hM, hD, hCM, h26]
        · simp [h1, hB, h21A, h21B, h23, h28, h24, hsusp, hM, hD, hCM, h26]
      · simp [h1, hB, h21A, h21B, h23, h28, h24, hsusp, hM, hD, hCM]
    · by_cases hCM : pt = "Сайт (.com)"
      · by_cases h26 : r.conversions = 0 ∧ 30 < r.spend
        · have hX : ¬(50 * coef ≤ r.spend ∧ 10 ≤ r.clicks) := fun hx => h21B ⟨h26.1, hx⟩
          have hY : ¬((a.avg_bounce * 1.2 * coef < r.bounce ∨ r.depth ≤ 1.0) ∧ 20 ≤ r.clicks) :=
            fun hy => h24 ⟨hy.1, h26.1, hy.2⟩
          simp [h1, hB, h21A, hX, hY, h23, h28, hsusp, hCM, h26]
        · simp [h1, hB, h21A, h21B, h23, h28, h24, hsusp, hCM, h26]
      · simp [h1, hB, h21A, h21B, h23, h28, h24, hsusp, hCM]

/-! ## Concrete inputs used by witnesses and counterexamples -/

/-- Baselines that are all zero (in particular `avg_cpa = 0`, the situation
of a batch without conversions). -/
def aZero : Averages := ⟨0, 0, 0, 0, 0, 0, 0⟩

/-- Representative non-degenerate baselines: avg_cpc = 10, avg_bounce = 50,
avg_cpa = 100. -/
def avgStd : Averages := ⟨1, 10, 50, 2, 1, 100, 100⟩

/-- Scenario 1 of §8: 1000 impressions, 600 clicks, CTR 60 %, no conversions. -/
def rScen1 : PlacementRecord := ⟨"site.ru", 1000, 600, 60, 0, 0, 0, 0, 0, 0⟩

/-- A placement with zero clicks, spend and conversions but 1000 impressions
and hence CTR 0. -/
def rC8 : PlacementRecord := ⟨"site.ru", 1000, 0, 0, 0, 0, 0, 0, 0, 0⟩

/-- A converting placement (1 conversion at cost 5) inside the 2.2б CTR band. -/
def rC6 : PlacementRecord := ⟨"site.ru", 100, 20, 20, 0, 0, 0, 0, 5, 1⟩

/-- A quiet placement: 100 impressions, CTR 1 %, everything else zero. -/
def rQuiet : PlacementRecord := ⟨"site.ru", 100, 0, 1, 0, 0, 0, 5, 0, 0⟩

/-- An effective placement under `avgStd`: 1 conversion at cost 50, CTR 1 %,
bounce rate 20 %. -/
def rEff : PlacementRecord := ⟨"site.ru", 100, 10, 1, 10, 1, 20, 5, 50, 1⟩

/-- A placement breaching rule 2.1B even at the Yandex-scaled threshold:
zero conversions, spend 100, 15 clicks. -/
def rLenB : PlacementRecord := ⟨"site.ru", 100, 15, 1, 100, 1, 10, 5, 0, 0⟩

lemma pt_site_ru : identify_platform_type "site.ru" = "Сайт" := by decide

lemma site_ne_yandex : ("Сайт" : String) ≠ "Яндекс-площадка" := by decide

lemma site_ne_mobile : ("Сайт" : String) ≠ "Мобильное приложение" := by decide

lemma site_ne_dsp : ("Сайт" : String) ≠ "DSP-площадка" := by decide

lemma site_ne_com : ("Сайт" : String) ≠ "Сайт (.com)" := by decide

lemma coef_yandex : yandexCoefOf "Яндекс-площадка" = 1.5 := by
  unfold yandexCoefOf
  rw [if_pos rfl]

lemma coef_site : yandexCoefOf "Сайт" = 1.0 := by
  unfold yandexCoefOf
  rw [if_neg site_ne_yandex]

lemma yandexCoefOf_cases (s : String) : yandexCoefOf s = 1.5 ∨ yandexCoefOf s = 1.0 := by
  unfold yandexCoefOf
  split
  · exact Or.inl rfl
  · exact Or.inr rfl

lemma one_le_yandexCoefOf (s : String) : 1 ≤ yandexCoefOf s := by
  rcases yandexCoefOf_cases s with h | h <;> rw [h] <;> norm_num

/-! Evaluations of the engine on the concrete inputs. -/

lemma eval_rScen1 : apply_blocking_criteria aZero rScen1 = some V22a := by
  norm_num [apply_blocking_criteria, yandexCoefOf, rScen1, aZero, pt_site_ru,
    site_ne_yandex, site_ne_mobile, site_ne_dsp, site_ne_com]
  intro h
  exact absurd h (by simp)

lemma eval_rC8 : apply_blocking_criteria aZero rC8 = some V23 := by
  norm_num [apply_blocking_criteria, yandexCoefOf, rC8, aZero, pt_site_ru,
    site_ne_yandex, site_ne_mobile, site_ne_dsp, site_ne_com]

lemma eval_rC8_seg : segmentTag aZero rC8 = SegmentTag.ineffective := by
  norm_num [segmentTag, rC8, aZero]

lemma eval_rC6 : apply_blocking_criteria aZero rC6 = some V22b21 := by
  norm_num [apply_blocking_criteria, yandexCoefOf, rC6, aZero, pt_site_ru,
    site_ne_yandex, site_ne_mobile, site_ne_dsp, site_ne_com]

lemma eval_rEff_seg : segmentTag avgStd rEff = SegmentTag.effective := by
  norm_num [segmentTag, rEff, avgStd]

/-! ## Claims -/

/-- C1: for every baseline set and every placement record the
BlockingRuleEngine produces at most one verdict (its result is an `Option`),
and that result equals the first-match evaluation `specVerdict` of the §4.3
precedence table (2.2а; 2.2б; 2.2б + 2.1; 2.1A; 2.1Б; 2.3; 2.8; 2.4; 2.5;
2.5Б; 2.6): whenever a verdict is produced, its criterion is the first rule
in that order whose condition holds, never a later one. -/
theorem blocking_verdict_first_match (a : Averages) (r : PlacementRecord) :
    apply_blocking_criteria a r = specVerdict a r :=
  apply_eq_spec a r

/-- C2 (counterexample): on the empty batch `calculate_averages` does not
fail: it returns a statistics value, whose six batch-wide means are NaN
(`none`) and whose `avg_cpa` is 0. -/
theorem calculate_averages_empty_returns_value :
    calculate_averages [] = ⟨none, none, none, none, none, none, 0⟩ := rfl

/-- C2 (amended): `calculate_averages` is total and never raises; its
batch-wide means are the undefined NaN value exactly when the batch is
empty, and are defined rationals on every non-empty batch. -/
theorem calculate_averages_mean_none_iff (df : List PlacementRecord) :
    (calculate_averages df).avg_ctr = none ↔ df = [] := by
  cases df <;> simp [calculate_averages, seriesMean]

/-- C4: the `avg_cpa` baseline computed by `calculate_averages` equals the
arithmetic mean of the cost-per-action field over exactly the records with
conversions > 0, and equals 0 when that subset is empty. -/
theorem avg_cpa_restricted_mean (df : List PlacementRecord) :
    (calculate_averages df).avg_cpa =
      if df.filter (fun r => decide (r.conversions > 0)) = [] then 0
      else arithMean ((df.filter fun r => decide (r.conversions > 0)).map fun r => r.cpa) := by
  by_cases h : df.filter (fun r => decide (r.conversions > 0)) = []
  · simp [calculate_averages, h]
  · simp [calculate_averages, arithMean, h, List.length_pos.mpr h]

/-- C5: a record with CTR ≥ 50 and impressions ≥ 10 always receives the
criterion 2.2а with priority КРИТИЧНЫЙ (Critical), whatever its other
fields, its platform type and the baselines. -/
theorem ctr50_always_22a (a : Averages) (r : PlacementRecord)
    (h1 : 50 ≤ r.ctr) (h2 : 10 ≤ r.impressions) :
    apply_blocking_criteria a r = some V22a := by
  rw [apply_eq_spec]
  unfold specVerdict
  simp [h1, h2]

/-- C5 (witness): scenario 1 of §8 — the record with impressions 1000,
clicks 600, CTR 60, conversions 0 is blocked under criterion 2.2а. -/
theorem ctr50_always_22a_witness :
    apply_blocking_criteria aZero rScen1 = some V22a :=
  ctr50_always_22a aZero rScen1 (by norm_num [rScen1]) (by norm_num [rScen1])
/-- Case analysis on a produced verdict: the eleven possible verdict values,
with the rule condition's key guard retained for 2.1A and 2.8. -/
lemma specVerdict_some_cases (a : Averages) (r : PlacementRecord) (v : Verdict)
    (hv : specVerdict a r = some v) :
    v = V22a ∨ v = V22b ∨ v = V22b21 ∨
      (v = V21A ∧ 0 < a.avg_cpa) ∨ v = V21B ∨ v = V23 ∨
      (v = V28 ∧ r.cpc < a.avg_cpc * 0.3) ∨ v = V24 ∨ v = V25 ∨ v = V25B ∨ v = V26 := by
  unfold specVerdict at hv
  rcases ite_eq_iff.mp hv with ⟨h1, he⟩ | ⟨h1, hv⟩
  · exact Or.inl (Option.some.inj he).symm
  rcases ite_eq_iff.mp hv with ⟨h2, he⟩ | ⟨h2, hv⟩
  · exact Or.inr (Or.inl (Option.some.inj he).symm)
  rcases ite_eq_iff.mp hv with ⟨h3, he⟩ | ⟨h3, hv⟩
  · exact Or.inr (Or.inr (Or.inl (Option.some.inj he).symm))
  rcases ite_eq_iff.mp hv with ⟨h4, he⟩ | ⟨h4, hv⟩
  · exact Or.inr (Or.inr (Or.inr (Or.inl ⟨(Option.some.inj he).symm, h4.2.2⟩)))
  rcases ite_eq_iff.mp hv with ⟨h5, he⟩ | ⟨h5, hv⟩
  · exact Or.inr (Or.inr (Or.inr (Or.inr (Or.inl (Option.some.inj he).symm))))
  rcases ite_eq_iff.mp hv with ⟨h6, he⟩ | ⟨h6, hv⟩
  · exact Or.inr (Or.inr (Or.inr (Or.inr (Or.inr (Or.inl (Option.some.inj he).symm)))))
  rcases ite_eq_iff.mp hv with ⟨h7, he⟩ | ⟨h7, hv⟩
  · exact Or.inr (Or.inr (Or.inr (Or.inr (Or.inr (Or.inr
      (Or.inl ⟨(Option.some.inj he).symm, h7.1⟩))))))
  rcases ite_eq_iff.mp hv with ⟨h8, he⟩ | ⟨h8, hv⟩
  · exact Or.inr (Or.inr (Or.inr (Or.inr (Or.inr (Or.inr (Or.inr
      (Or.inl (Option.some.inj he).symm)))))))
  rcases ite_eq_iff.mp hv with ⟨h9, he⟩ | ⟨h9, hv⟩
  · exact Or.inr (Or.inr (Or.inr (Or.inr (Or.inr (Or.inr (Or.inr (Or.inr
      (Or.inl (Option.some.inj he).symm))))))))
  rcases ite_eq_iff.mp hv with ⟨h10, he⟩ | ⟨h10, hv⟩
  · exact Or.inr (Or.inr (Or.inr (Or.inr (Or.inr (Or.inr (Or.inr (Or.inr (Or.inr
      (Or.inl (Option.some.inj he).symm)))))))))
  rcases ite_eq_iff.mp hv with ⟨h11, he⟩ | ⟨h11, hv⟩
  · exact Or.inr (Or.inr (Or.inr (Or.inr (Or.inr (Or.inr (Or.inr (Or.inr (Or.inr
      (Or.inr (Option.some.inj he).symm)))))))))
  exact absurd hv (by simp)

/-- C6 (counterexample): with baseline `avg_cpa = 0`, a record with
non-negative fields (CTR 20, 100 impressions, 1 conversion at cost 5) does
receive the verdict 2.2б + 2.1 — the expensive-conversion sub-branch of
rule 2.2б is satisfiable when `avg_cpa = 0`, because it lacks the
`avg_cpa > 0` guard that rule 2.1A has. -/
theorem zero_avg_cpa_22b21_fires :
    apply_blocking_criteria aZero rC6 = some V22b21 :=
  eval_rC6

/-- C6 (amended): when the baseline `avg_cpa` is 0, rule 2.1A can never
produce a verdict (its condition carries an explicit `avg_cpa > 0` guard);
the expensive-conversion sub-branch 2.2б + 2.1, which has no such guard,
remains satisfiable for records with positive cost-per-action. -/
theorem zero_avg_cpa_no_21A (a : Averages) (r : PlacementRecord)
    (ha : a.avg_cpa = 0) (v : Verdict)
    (hv : apply_blocking_criteria a r = some v) :
    v.criteria_number ≠ "2.1A" := by
  rw [apply_eq_spec] at hv
  rcases specVerdict_some_cases a r v hv with
    h | h | h | ⟨h, hpos⟩ | h | h | ⟨h, hlt⟩ | h | h | h | h
  all_goals try (rw [h]; decide)
  rw [ha] at hpos
  exact absurd hpos (by norm_num)

/-- C6 (witness): the amended theorem applied to the concrete record of the
counterexample — its 2.2б + 2.1 verdict indeed does not carry the criterion
2.1A. -/
theorem zero_avg_cpa_no_21A_witness : V22b21.criteria_number ≠ "2.1A" :=
  zero_avg_cpa_no_21A aZero rC6 rfl V22b21 eval_rC6

/-- C10: when the baseline `avg_cpc` is 0, rule 2.8 can never produce a
verdict for a record with non-negative average cost-per-click, since its
condition would require `cpc < 0 × 0.3 = 0`. -/
theorem zero_avg_cpc_no_28 (a : Averages) (r : PlacementRecord)
    (ha : a.avg_cpc = 0) (hr : 0 ≤ r.cpc) (v : Verdict)
    (hv : apply_blocking_criteria a r = some v) :
    v.criteria_number ≠ "2.8" := by
  rw [apply_eq_spec] at hv
  rcases specVerdict_some_cases a r v hv with
    h | h | h | ⟨h, hpos⟩ | h | h | ⟨h, hlt⟩ | h | h | h | h
  all_goals try (rw [h]; decide)
  rw [ha] at hlt
  norm_num at hlt
  exact absurd hlt (not_lt.mpr hr)

/-- C10 (witness): the theorem applied to the zero-click record blocked
under rule 2.3 against all-zero baselines. -/
theorem zero_avg_cpc_no_28_witness : V23.criteria_number ≠ "2.8" :=
  zero_avg_cpc_no_28 aZero rC8 rfl (by norm_num [rC8]) V23 eval_rC8

/-- C8 (counterexample): a record with conversions = 0, spend = 0 and
clicks = 0 but 1000 impressions (hence CTR 0) is not kept: rule 2.3
(critically low CTR at scale) blocks it, and the SegmentationEngine tags it
Ineffective, not Medium. -/
theorem zero_activity_record_can_be_blocked :
    apply_blocking_criteria aZero rC8 = some V23 ∧
      segmentTag aZero rC8 = SegmentTag.ineffective :=
  ⟨eval_rC8, eval_rC8_seg⟩

/-- C8 (amended): a record with conversions = 0, spend = 0 and clicks = 0
whose CTR is below the 2.2б band (CTR < 10) and whose impressions stay
below the 2.3 scale threshold (impressions < 1000) receives no verdict and
is tagged Medium, for every baseline set. -/
theorem quiet_record_kept_medium (a : Averages) (r : PlacementRecord)
    (hconv : r.conversions = 0) (hspend : r.spend = 0) (hclicks : r.clicks = 0)
    (hctr : r.ctr < 10) (himp : r.impressions < 1000) :
    apply_blocking_criteria a r = none ∧ segmentTag a r = SegmentTag.medium := by
  have hcoef1 : 1 ≤ yandexCoefOf (identify_platform_type r.platform) :=
    one_le_yandexCoefOf _
  constructor
  · rw [apply_eq_spec]
    unfold specVerdict
    set coef := yandexCoefOf (identify_platform_type r.platform) with hc
    have nA : ¬(50 ≤ r.ctr) := by linarith
    have nB : ¬(10 * coef ≤ r.ctr) := by nlinarith
    have nConv : ¬(0 < r.conversions) := by rw [hconv]; norm_num
    have nSp50 : ¬(50 * coef ≤ r.spend) := by rw [hspend]; nlinarith
    have nImp : ¬(1000 ≤ r.impressions) := by linarith
    have n15 : ¬(15 < r.ctr) := by linarith
    have n20 : ¬(20 < r.ctr) := by linarith
    have nClk : ¬(20 ≤ r.clicks) := by rw [hclicks]; norm_num
    have nSp30 : ¬(30 < r.spend) := by rw [hspend]; norm_num
    simp [nA, nB, nConv, nSp50, nImp, n15, n20, nClk, nSp30]
  · unfold segmentTag
    have nA : ¬(50 ≤ r.ctr) := by linarith
    have n10 : ¬(10 ≤ r.ctr) := by linarith
    have nConv : ¬(0 < r.conversions) := by rw [hconv]; norm_num
    have nSp : ¬(50 ≤ r.spend) := by rw [hspend]; norm_num
    have nImp : ¬(1000 ≤ r.impressions) := by linarith
    simp [nA, n10, nConv, nSp, nImp]

/-- C8 (witness): the amended theorem at a concrete quiet record (100
impressions, CTR 1, everything else zero) against all-zero baselines. -/
theorem quiet_record_kept_medium_witness :
    apply_blocking_criteria aZero rQuiet = none ∧
      segmentTag aZero rQuiet = SegmentTag.medium :=
  quiet_record_kept_medium aZero rQuiet (by norm_num [rQuiet]) (by norm_num [rQuiet])
    (by norm_num [rQuiet]) (by norm_num [rQuiet]) (by norm_num [rQuiet])

/-- C9: for records with non-negative fields and baselines with
avg_cpa ≥ 0 and avg_bounce ≥ 0, a record the SegmentationEngine tags
Effective receives no verdict from the BlockingRuleEngine under the same
baselines. -/
theorem effective_never_blocked (a : Averages) (r : PlacementRecord)
    (hImp : 0 ≤ r.impressions) (hClk : 0 ≤ r.clicks) (hCtr : 0 ≤ r.ctr)
    (hSp : 0 ≤ r.spend) (hCpc : 0 ≤ r.cpc) (hBo : 0 ≤ r.bounce)
    (hDe : 0 ≤ r.depth) (hCpa : 0 ≤ r.cpa) (hConv : 0 ≤ r.conversions)
    (hACpa : 0 ≤ a.avg_cpa) (hABo : 0 ≤ a.avg_bounce)
    (heff : segmentTag a r = SegmentTag.effective) :
    apply_blocking_criteria a r = none := by
  unfold segmentTag at heff
  by_cases hE : r.conversions > 0 ∧ r.cpa ≤ a.avg_cpa ∧
      (0.5 ≤ r.ctr ∧ r.ctr ≤ 2) ∧ r.bounce ≤ a.avg_bounce
  · obtain ⟨hc, hcpa, ⟨hct1, hct2⟩, hbo⟩ := hE
    have hcoef1 : 1 ≤ yandexCoefOf (identify_platform_type r.platform) :=
      one_le_yandexCoefOf _
    rw [apply_eq_spec]
    unfold specVerdict
    set coef := yandexCoefOf (identify_platform_type r.platform) with hcf
    have nA : ¬(50 ≤ r.ctr) := by linarith
    have nB : ¬(10 * coef ≤ r.ctr) := by nlinarith
    have nConv0 : ¬(r.conversions = 0) := by
      intro h0
      rw [h0] at hc
      norm_num at hc
    have key : a.avg_cpa ≤ a.avg_cpa * 2.5 * coef := by
      nlinarith [mul_nonneg hACpa (by linarith : (0 : ℚ) ≤ coef - 1)]
    have nTh : ¬(a.avg_cpa * 2.5 * coef < r.cpa) := not_lt.mpr (le_trans hcpa key)
    have n23 : ¬(r.ctr < 0.20 / coef) := by
      have h02 : (0.20 : ℚ) / coef ≤ 0.20 := div_le_self (by norm_num) hcoef1
      exact not_lt.mpr (by linarith)
    have n15 : ¬(15 < r.ctr) := by linarith
    have n20 : ¬(20 < r.ctr) := by linarith
    simp [nA, nB, nConv0, nTh, n23, n15, n20]
  · rw [if_neg hE] at heff
    split_ifs at heff

/-- C9 (witness): the theorem at baselines avgStd and the effective record
rEff (1 conversion at cost 50, CTR 1, bounce 20). -/
theorem effective_never_blocked_witness :
    apply_blocking_criteria avgStd rEff = none :=
  effective_never_blocked avgStd rEff (by norm_num [rEff]) (by norm_num [rEff])
    (by norm_num [rEff]) (by norm_num [rEff]) (by norm_num [rEff])
    (by norm_num [rEff]) (by norm_num [rEff]) (by norm_num [rEff])
    (by norm_num [rEff]) (by norm_num [avgStd]) (by norm_num [avgStd])
    eval_rEff_seg

/-- The prefix loop returns the mobile-app category exactly when some prefix
of the table matches and the compound guard holds. -/
lemma mobileCheck_iff (n : String) (ps : List String) :
    mobileCheck n ps = true ↔
      (ps.any fun p => strStarts n p) ∧
        (2 ≤ dotCount n ∨ ¬(strContains n "yandex" ∨ strContains n "dzen")) := by
  induction ps with
  | nil => simp [mobileCheck]
  | cons p ps ih =>
    by_cases hs : strStarts n p
    · by_cases hg : 2 ≤ dotCount n ∨ ¬(strContains n "yandex" ∨ strContains n "dzen")
      · simp only [mobileCheck]
        rw [if_pos hs, if_pos hg]
        simp [List.any_cons, hs]
        simpa using hg
      · simp only [mobileCheck]
        rw [if_pos hs, if_neg hg]
        simp [List.any_cons, ih, hg]
        intro hgn _
        exact absurd (by simpa using hgn) hg
    · simp only [mobileCheck]
      rw [if_neg hs]
      simp [List.any_cons, ih, hs]

/-- C3: the classifier is total and deterministic, always lands in one of
the five categories (Яндекс-площадка = YandexNetworkPlacement,
DSP-площадка = DspPlacement, Мобильное приложение = MobileApp,
Сайт (.com) = ComDomainSite, Сайт = GenericSite), lower-cases the
identifier first, and agrees with the §4.1 first-match precedence list
`specClassify`. -/
theorem identify_platform_type_spec (s : String) :
    (identify_platform_type s = "Яндекс-площадка" ∨
     identify_platform_type s = "DSP-площадка" ∨
     identify_platform_type s = "Мобильное приложение" ∨
     identify_platform_type s = "Сайт (.com)" ∨
     identify_platform_type s = "Сайт") ∧
    identify_platform_type s = specClassify s := by
  constructor
  · unfold identify_platform_type
    dsimp only
    split_ifs <;> simp
  · unfold identify_platform_type specClassify
    simp only [mobileCheck_iff]

/-- C7: Yandex leniency.  With non-negative baselines, for identical numeric
fields the Yandex coefficient (1.5) makes each coefficient-scaled rule
condition (2.1A, 2.1B, 2.2б both sub-branches, 2.3, 2.4) strictly harder to
satisfy than the generic coefficient (1.0): every record satisfying the
Yandex-scaled condition satisfies the generic-scaled one, and for each rule
there are field values satisfying the generic-scaled condition but not the
Yandex-scaled one. -/
theorem yandex_leniency (a : Averages) (hcpa : 0 ≤ a.avg_cpa) (hb : 0 ≤ a.avg_bounce) :
    ((∀ r, cond21A a (yandexCoefOf "Яндекс-площадка") r →
        cond21A a (yandexCoefOf "Сайт") r) ∧
     (∀ r, cond21B (yandexCoefOf "Яндекс-площадка") r →
        cond21B (yandexCoefOf "Сайт") r) ∧
     (∀ r, (cond22bZero (yandexCoefOf "Яндекс-площадка") r ∨
            cond22bExp a (yandexCoefOf "Яндекс-площадка") r) →
        (cond22bZero (yandexCoefOf "Сайт") r ∨ cond22bExp a (yandexCoefOf "Сайт") r)) ∧
     (∀ r, cond23 (yandexCoefOf "Яндекс-площадка") r → cond23 (yandexCoefOf "Сайт") r) ∧
     (∀ r, cond24 a (yandexCoefOf "Яндекс-площадка") r → cond24 a (yandexCoefOf "Сайт") r)) ∧
    ((∃ a' r, 0 ≤ a'.avg_cpa ∧ cond21A a' (yandexCoefOf "Сайт") r ∧
        ¬cond21A a' (yandexCoefOf "Яндекс-площадка") r) ∧
     (∃ r, cond21B (yandexCoefOf "Сайт") r ∧ ¬cond21B (yandexCoefOf "Яндекс-площадка") r) ∧
     (∃ a' r, (cond22bZero (yandexCoefOf "Сайт") r ∨ cond22bExp a' (yandexCoefOf "Сайт") r) ∧
        ¬(cond22bZero (yandexCoefOf "Яндекс-площадка") r ∨
          cond22bExp a' (yandexCoefOf "Яндекс-площадка") r)) ∧
     (∃ r, cond23 (yandexCoefOf "Сайт") r ∧ ¬cond23 (yandexCoefOf "Яндекс-площадка") r) ∧
     (∃ a' r, 0 ≤ a'.avg_bounce ∧ cond24 a' (yandexCoefOf "Сайт") r ∧
        ¬cond24 a' (yandexCoefOf "Яндекс-площадка") r)) := by
  rw [coef_yandex, coef_site]
  constructor
  · refine ⟨?_, ?_, ?_, ?_, ?_⟩
    · rintro r ⟨h1, h2, h3⟩
      exact ⟨h1, by nlinarith, h3⟩
    · rintro r ⟨h1, h2, h3⟩
      exact ⟨h1, by linarith, h3⟩
    · rintro r (⟨⟨hb1, hb2, hb3⟩, hz⟩ | ⟨⟨hb1, hb2, hb3⟩, hc, hx⟩)
      · exact Or.inl ⟨⟨by linarith, hb2, hb3⟩, hz⟩
      · exact Or.inr ⟨⟨by linarith, hb2, hb3⟩, hc, by nlinarith⟩
    · rintro r ⟨h1, h2⟩
      refine ⟨by nlinarith [h1], h2⟩
    · rintro r ⟨h1, h2, h3⟩
      refine ⟨?_, h2, h3⟩
      rcases h1 with h1 | h1
      · exact Or.inl (by nlinarith)
      · exact Or.inr h1
  · refine ⟨?_, ?_, ?_, ?_, ?_⟩
    · refine ⟨avgStd, ⟨"site.ru", 100, 10, 1, 10, 1, 20, 5, 300, 1⟩, ?_, ?_, ?_⟩
      · norm_num [avgStd]
      · norm_num [cond21A, avgStd]
      · norm_num [cond21A, avgStd]
    · refine ⟨⟨"site.ru", 100, 15, 1, 60, 1, 10, 5, 0, 0⟩, ?_, ?_⟩
      · norm_num [cond21B]
      · norm_num [cond21B]
    · refine ⟨avgStd, ⟨"site.ru", 100, 12, 12, 10, 1, 20, 5, 0, 0⟩, ?_, ?_⟩
      · exact Or.inl (by norm_num [cond22bZero, ctrBand])
      · norm_num [cond22bZero, cond22bExp, ctrBand]
    · refine ⟨⟨"site.ru", 2000, 3, 0.15, 10, 1, 20, 5, 0, 0⟩, ?_, ?_⟩
      · norm_num [cond23]
      · norm_num [cond23]
    · refine ⟨avgStd, ⟨"site.ru", 100, 25, 1, 10, 1, 70, 5, 0, 0⟩, ?_, ?_, ?_⟩
      · norm_num [avgStd]
      · norm_num [cond24, avgStd]
      · norm_num [cond24, avgStd]

/-- C7 (witness): the 2.1B monotonicity implication of the theorem applied
at baselines avgStd to the record rLenB, whose spend 100 breaches even the
Yandex-scaled threshold 75. -/
theorem yandex_leniency_witness : cond21B (yandexCoefOf "Сайт") rLenB :=
  (yandex_leniency avgStd (by norm_num [avgStd]) (by norm_num [avgStd])).1.2.1 rLenB
    (by rw [coef_yandex]; norm_num [cond21B, rLenB])
